import Mathlib

/-
Verification of the Auth0 management `Users` client (auth0/v3/management/users.py).

The Python class is embedded shallowly: each method is a pure function from the
client's configuration and its arguments to the single HTTP request it issues
(explicit state passing: every method also returns the instance state it leaves
behind).  Parameter dictionaries become ordered association lists whose values
are the Python values placed there (strings, ints, or None); the shared REST
client's treatment of None-valued parameters is modelled from the spec, since
rest.py is not part of the sources under verification.
-/

set_option autoImplicit false

namespace Auth0

/-- A value placed in a Python params dict by users.py: a string, an int, or None. -/
inductive PyParam where
  | str (s : String)
  | int (n : Int)
  | none
deriving DecidableEq

/-- Whether a parameter value is Python `None`. -/
def PyParam.isNone : PyParam → Bool
  | .none => true
  | _ => false

/-- HTTP verbs used by the Users endpoints. -/
inductive Method where
  | get
  | post
  | patch
  | delete
deriving DecidableEq

/-- A request body: a JSON-object-shaped mapping, passed through verbatim. -/
abbrev Body := List (String × String)

/-- The outgoing HTTP request composed by a Users method. -/
structure Request where
  method : Method
  url : String
  params : List (String × PyParam)
  data : Option Body
deriving DecidableEq

/-- Modelled from the spec: the shared REST client (rest.py, not among the
sources) omits None-valued parameters entirely from the outgoing parameter
set; all other entries are sent as given. -/
def sentParams (ps : List (String × PyParam)) : List (String × PyParam) :=
  ps.filter (fun kv => !kv.2.isNone)

/-- The REST client handle built at construction (rest.RestClient(jwt, telemetry)). -/
structure RestClient where
  jwt : String
  telemetry : Bool
deriving DecidableEq

/-- Modelled from the spec: RestClient.get issues a GET to the url with the
None-omitted parameter set and no body. -/
def RestClient.get (_c : RestClient) (url : String)
    (params : List (String × PyParam)) : Request :=
  { method := Method.get, url := url, params := sentParams params, data := Option.none }

/-- Modelled from the spec: RestClient.post issues a POST to the url with the
given body passed through unmodified and no query parameters built here. -/
def RestClient.post (_c : RestClient) (url : String) (data : Option Body) : Request :=
  { method := Method.post, url := url, params := [], data := data }

/-- Modelled from the spec: RestClient.patch issues a PATCH to the url with the
given body passed through unmodified. -/
def RestClient.patch (_c : RestClient) (url : String) (data : Option Body) : Request :=
  { method := Method.patch, url := url, params := [], data := data }

/-- Modelled from the spec: RestClient.delete issues a DELETE to the url with
no parameters and no body. -/
def RestClient.delete (_c : RestClient) (url : String) : Request :=
  { method := Method.delete, url := url, params := [], data := Option.none }

/-- The Users instance: the domain and the REST client handle stored by __init__. -/
structure Users where
  domain : String
  client : RestClient
deriving DecidableEq

/-- Users.__init__(domain, token, telemetry): stores the domain and constructs
the REST client handle from the token and the telemetry flag. -/
def Users.init (domain token : String) (telemetry : Bool) : Users :=
  { domain := domain, client := { jwt := token, telemetry := telemetry } }

/-- Users._url: the string 'https://%s/api/v2/users' % domain, with '/' + id
appended when id is not None. -/
def Users._url (self : Users) (id : Option String) : String :=
  let url := "https://" ++ self.domain ++ "/api/v2/users"
  match id with
  | Option.some i => url ++ "/" ++ i
  | Option.none => url

/-- Python str(...) on a boolean: "True" or "False". -/
def pyStrBool (b : Bool) : String :=
  if b then "True" else "False"

/-- Python str.lower(): lowercases every character. -/
def pyLower (s : String) : String :=
  ⟨List.map Char.toLower s.data⟩

/-- The Python expression `fields and ','.join(fields) or None` under Python
truthiness: None and the empty list are falsy, and so is the empty string
produced by the join, each yielding None. -/
def fieldsParam (fields : Option (List String)) : Option String :=
  match fields with
  | Option.none => Option.none
  | Option.some fs =>
    if fs.isEmpty then Option.none
    else
      let j := String.intercalate "," fs
      if j = "" then Option.none else Option.some j

/-- An optional string placed in a params dict: the string itself or None. -/
def pyOpt : Option String → PyParam
  | Option.some s => PyParam.str s
  | Option.none => PyParam.none

/-- Users.list: list or search users.  Source defaults: page=0, per_page=25,
sort=None, connection=None, q=None, search_engine='v1', include_totals=True,
fields=None, include_fields=True. -/
def Users.list (self : Users) (page per_page : Int) (sort connection q : Option String)
    (search_engine : String) (include_totals : Bool) (fields : Option (List String))
    (include_fields : Bool) : Users × Request :=
  let params : List (String × PyParam) := [
    ("per_page", PyParam.int per_page),
    ("page", PyParam.int page),
    ("include_totals", PyParam.str (pyLower (pyStrBool include_totals))),
    ("sort", pyOpt sort),
    ("connection", pyOpt connection),
    ("fields", pyOpt (fieldsParam fields)),
    ("include_fields", PyParam.str (pyLower (pyStrBool include_fields))),
    ("q", pyOpt q),
    ("search_engine", PyParam.str search_engine)
  ]
  (self, self.client.get (self._url Option.none) params)

/-- Users.create: POST the body to the base users URL. -/
def Users.create (self : Users) (body : Body) : Users × Request :=
  (self, self.client.post (self._url Option.none) (Option.some body))

/-- Users.delete_all_users: DELETE the base users URL. -/
def Users.delete_all_users (self : Users) : Users × Request :=
  (self, self.client.delete (self._url Option.none))

/-- Users.get: GET a single user with fields / include_fields parameters.
Source defaults: fields=None, include_fields=True. -/
def Users.get (self : Users) (id : String) (fields : Option (List String))
    (include_fields : Bool) : Users × Request :=
  let params : List (String × PyParam) := [
    ("fields", pyOpt (fieldsParam fields)),
    ("include_fields", PyParam.str (pyLower (pyStrBool include_fields)))
  ]
  (self, self.client.get (self._url (Option.some id)) params)

/-- Users.delete: DELETE a single user. -/
def Users.delete (self : Users) (id : String) : Users × Request :=
  (self, self.client.delete (self._url (Option.some id)))

/-- Users.update: PATCH a single user with the given body. -/
def Users.update (self : Users) (id : String) (body : Body) : Users × Request :=
  (self, self.client.patch (self._url (Option.some id)) (Option.some body))

/-- Users.delete_multifactor: DELETE the url built from
'{}/multifactor/{}'.format(id, provider). -/
def Users.delete_multifactor (self : Users) (id provider : String) : Users × Request :=
  (self, self.client.delete (self._url (Option.some (id ++ "/multifactor/" ++ provider))))

/-- Users.unlink_user_account: DELETE the url built from
'{}/identities/{}/{}'.format(id, provider, user_id). -/
def Users.unlink_user_account (self : Users) (id provider user_id : String) :
    Users × Request :=
  (self,
    self.client.delete
      (self._url (Option.some (id ++ "/identities/" ++ provider ++ "/" ++ user_id))))

/-- Users.link_user_account: POST the body to '%s/identities' % user_id. -/
def Users.link_user_account (self : Users) (user_id : String) (body : Body) :
    Users × Request :=
  (self, self.client.post (self._url (Option.some (user_id ++ "/identities")))
    (Option.some body))

/-- Users.regenerate_recovery_code: POST with no body to
'%s/recovery-code-regeneration' % user_id. -/
def Users.regenerate_recovery_code (self : Users) (user_id : String) : Users × Request :=
  (self,
    self.client.post (self._url (Option.some (user_id ++ "/recovery-code-regeneration")))
      Option.none)

/-- Users.get_guardian_enrollments: GET '%s/enrollments' % user_id with no params. -/
def Users.get_guardian_enrollments (self : Users) (user_id : String) : Users × Request :=
  (self, self.client.get (self._url (Option.some (user_id ++ "/enrollments"))) [])

/-- Users.get_log_events: GET '%s/logs' % user_id.  Source defaults: page=0,
per_page=50, sort=None, include_totals=False. -/
def Users.get_log_events (self : Users) (user_id : String) (page per_page : Int)
    (sort : Option String) (include_totals : Bool) : Users × Request :=
  let params : List (String × PyParam) := [
    ("per_page", PyParam.int per_page),
    ("page", PyParam.int page),
    ("include_totals", PyParam.str (pyLower (pyStrBool include_totals))),
    ("sort", pyOpt sort)
  ]
  (self, self.client.get (self._url (Option.some (user_id ++ "/logs"))) params)

/-- Whether a character list contains two consecutive slash characters. -/
def hasDS : List Char → Bool
  | [] => false
  | [_] => false
  | a :: b :: rest => (a == '/' && b == '/') || hasDS (b :: rest)

/-- Whether a character list starts with a slash. -/
def headIsSlash : List Char → Bool
  | [] => false
  | a :: _ => a == '/'

/-- Whether a character list ends with a slash. -/
def lastIsSlash : List Char → Bool
  | [] => false
  | [a] => a == '/'
  | _ :: b :: rest => lastIsSlash (b :: rest)

/-- The characters of a users URL with an id, after the scheme prefix "https://". -/
def urlTail (u : Users) (id : String) : List Char :=
  u.domain.data ++ "/api/v2/users/".data ++ id.data

theorem string_data_append (a b : String) : (a ++ b).data = a.data ++ b.data := rfl

theorem str_append_assoc (a b c : String) : a ++ b ++ c = a ++ (b ++ c) := by
  apply String.ext
  simp [string_data_append]

theorem hasDS_append (xs ys : List Char) :
    hasDS (xs ++ ys) = (hasDS xs || hasDS ys || (lastIsSlash xs && headIsSlash ys)) := by
  induction xs with
  | nil => simp [hasDS, lastIsSlash]
  | cons a tail ih =>
    cases tail with
    | nil =>
      cases ys with
      | nil => simp [hasDS, lastIsSlash, headIsSlash]
      | cons b ys2 =>
        simp [hasDS, lastIsSlash, headIsSlash, Bool.or_comm]
    | cons b rest =>
      simp only [List.cons_append] at ih
      simp only [List.cons_append, hasDS, lastIsSlash, List.append_eq]
      rw [ih]
      cases a == '/' <;> cases b == '/' <;> cases hasDS (b :: rest) <;>
        cases hasDS ys <;> cases lastIsSlash (b :: rest) <;> cases headIsSlash ys <;> simp

theorem hasDS_append_no (xs ys : List Char) (h1 : hasDS xs = false)
    (h2 : hasDS ys = false) (h3 : (lastIsSlash xs && headIsSlash ys) = false) :
    hasDS (xs ++ ys) = false := by
  rw [hasDS_append, h1, h2, h3]
  rfl

theorem lastIsSlash_cons (a : Char) (l : List Char) (h : l ≠ []) :
    lastIsSlash (a :: l) = lastIsSlash l := by
  cases l with
  | nil => exact absurd rfl h
  | cons b rest => rfl

theorem lastIsSlash_append (xs ys : List Char) (h : ys ≠ []) :
    lastIsSlash (xs ++ ys) = lastIsSlash ys := by
  induction xs with
  | nil => rfl
  | cons a tail ih =>
    rw [List.cons_append, lastIsSlash_cons a (tail ++ ys) ?_, ih]
    intro hc
    exact h (List.append_eq_nil.mp hc).2

theorem pyLower_bool (b : Bool) :
    pyLower (pyStrBool b) = (if b then "true" else "false") := by
  cases b <;> decide

theorem url_none_eq (u : Users) :
    u._url Option.none = "https://" ++ u.domain ++ "/api/v2/users" := rfl

theorem mid_slash (l : List Char) :
    "/api/v2/users".data ++ ("/".data ++ l) = "/api/v2/users/".data ++ l := by
  have h : "/api/v2/users".data ++ "/".data = "/api/v2/users/".data := by decide
  rw [← List.append_assoc, h]

theorem url_some_eq (u : Users) (id : String) :
    u._url (Option.some id) = "https://" ++ u.domain ++ "/api/v2/users/" ++ id := by
  apply String.ext
  simp only [Users._url, string_data_append, List.append_assoc]
  rw [mid_slash]

theorem lookup_sent_skip (k k2 : String) (v : PyParam) (l : List (String × PyParam))
    (h : (k == k2) = false) :
    List.lookup k (sentParams ((k2, v) :: l)) = List.lookup k (sentParams l) := by
  by_cases hv : v.isNone = true
  · simp [sentParams, List.filter_cons, hv]
  · simp only [Bool.not_eq_true] at hv
    simp [sentParams, List.filter_cons, hv, List.lookup, h]

theorem lookup_sent_found (k : String) (v : PyParam) (l : List (String × PyParam))
    (h : v.isNone = false) :
    List.lookup k (sentParams ((k, v) :: l)) = Option.some v := by
  simp [sentParams, List.filter_cons, h, List.lookup]

theorem lookup_sent_found_str (k s : String) (l : List (String × PyParam)) :
    List.lookup k (sentParams ((k, PyParam.str s) :: l)) = Option.some (PyParam.str s) :=
  lookup_sent_found k (PyParam.str s) l rfl

theorem lookup_sent_none (k k2 : String) (l : List (String × PyParam)) :
    List.lookup k (sentParams ((k2, PyParam.none) :: l)) = List.lookup k (sentParams l) := by
  simp [sentParams, List.filter_cons, PyParam.isNone]

/-- C1 counterexample: the no-double-slash clause fails as universally stated.
At id = "/x" the builder returns "https://example.com/api/v2/users//x", and
even the part after the scheme prefix (dropping the 8 characters of
"https://") contains a double slash. -/
theorem C1_counterexample :
    (Users.init "example.com" "token" true)._url (Option.some "/x")
      = "https://example.com/api/v2/users//x" ∧
    hasDS ((((Users.init "example.com" "token" true)._url (Option.some "/x")).drop 8).data)
      = true := by
  constructor
  · rfl
  · decide

/-- C1 (amended): _url(id) is the verbatim concatenation
"https://" + domain + "/api/v2/users/" + id, and with id absent it is exactly
"https://" + domain + "/api/v2/users" with no trailing slash; the part of the
result after the scheme prefix "https://" contains no double slash provided
domain contains no double slash and does not end with a slash, and id contains
no double slash and does not start with a slash. -/
theorem C1_url_builder (u : Users) (id : String)
    (hd1 : hasDS u.domain.data = false) (hd2 : lastIsSlash u.domain.data = false)
    (hi1 : hasDS id.data = false) (hi2 : headIsSlash id.data = false) :
    u._url (Option.some id) = "https://" ++ u.domain ++ "/api/v2/users/" ++ id ∧
    (u._url (Option.some id)).data = "https://".data ++ urlTail u id ∧
    hasDS (urlTail u id) = false ∧
    u._url Option.none = "https://" ++ u.domain ++ "/api/v2/users" ∧
    lastIsSlash ((u._url Option.none).data) = false := by
  refine ⟨url_some_eq u id, ?_, ?_, rfl, ?_⟩
  · rw [url_some_eq]
    simp [string_data_append, urlTail, List.append_assoc]
  · have hm : hasDS "/api/v2/users/".data = false := by decide
    have hml : lastIsSlash "/api/v2/users/".data = true := by decide
    have h1 : hasDS (u.domain.data ++ "/api/v2/users/".data) = false := by
      apply hasDS_append_no _ _ hd1 hm
      rw [hd2]
      rfl
    have h2 : lastIsSlash (u.domain.data ++ "/api/v2/users/".data)
        = lastIsSlash "/api/v2/users/".data :=
      lastIsSlash_append _ _ (by decide)
    unfold urlTail
    apply hasDS_append_no _ _ h1 hi1
    rw [h2, hml, hi2]
    rfl
  · show lastIsSlash ((("https://" ++ u.domain) ++ "/api/v2/users").data) = false
    rw [string_data_append, lastIsSlash_append _ _ (by decide)]
    decide

/-- C1 witness: the amended URL-builder property instantiated at domain
"example.com" and id "abc". -/
theorem C1_url_builder_witness :
    hasDS (Users.init "example.com" "token" true).domain.data = false ∧
    lastIsSlash (Users.init "example.com" "token" true).domain.data = false ∧
    hasDS ("abc" : String).data = false ∧
    headIsSlash ("abc" : String).data = false ∧
    ((Users.init "example.com" "token" true)._url (Option.some "abc")
        = "https://" ++ (Users.init "example.com" "token" true).domain
            ++ "/api/v2/users/" ++ "abc" ∧
      ((Users.init "example.com" "token" true)._url (Option.some "abc")).data
        = "https://".data ++ urlTail (Users.init "example.com" "token" true) "abc" ∧
      hasDS (urlTail (Users.init "example.com" "token" true) "abc") = false ∧
      (Users.init "example.com" "token" true)._url Option.none
        = "https://" ++ (Users.init "example.com" "token" true).domain ++ "/api/v2/users" ∧
      lastIsSlash (((Users.init "example.com" "token" true)._url Option.none).data) = false) :=
  ⟨by decide, by decide, by decide, by decide,
    C1_url_builder (Users.init "example.com" "token" true) "abc"
      (by decide) (by decide) (by decide) (by decide)⟩

/-- C2: every boolean passed as include_totals or include_fields to list, get,
or get_log_events goes out as the exact lowercase string "true" when the
boolean is true and "false" when it is false. -/
theorem C2_bool_params (u : Users) (page per_page : Int)
    (sort connection q : Option String) (se : String)
    (fields : Option (List String)) (id uid : String) (bt bf bg bl : Bool) :
    List.lookup "include_totals"
        ((u.list page per_page sort connection q se bt fields bf).2.params)
      = Option.some (PyParam.str (if bt then "true" else "false")) ∧
    List.lookup "include_fields"
        ((u.list page per_page sort connection q se bt fields bf).2.params)
      = Option.some (PyParam.str (if bf then "true" else "false")) ∧
    List.lookup "include_fields" ((u.get id fields bg).2.params)
      = Option.some (PyParam.str (if bg then "true" else "false")) ∧
    List.lookup "include_totals" ((u.get_log_events uid page per_page sort bl).2.params)
      = Option.some (PyParam.str (if bl then "true" else "false")) := by
  refine ⟨?_, ?_, ?_, ?_⟩
  · simp only [Users.list, RestClient.get]
    rw [lookup_sent_skip _ "per_page" _ _ (by decide),
      lookup_sent_skip _ "page" _ _ (by decide),
      lookup_sent_found_str _ _ _, pyLower_bool]
  · simp only [Users.list, RestClient.get]
    rw [lookup_sent_skip _ "per_page" _ _ (by decide),
      lookup_sent_skip _ "page" _ _ (by decide),
      lookup_sent_skip _ "include_totals" _ _ (by decide),
      lookup_sent_skip _ "sort" _ _ (by decide),
      lookup_sent_skip _ "connection" _ _ (by decide),
      lookup_sent_skip _ "fields" _ _ (by decide),
      lookup_sent_found_str _ _ _, pyLower_bool]
  · simp only [Users.get, RestClient.get]
    rw [lookup_sent_skip _ "fields" _ _ (by decide),
      lookup_sent_found_str _ _ _, pyLower_bool]
  · simp only [Users.get_log_events, RestClient.get]
    rw [lookup_sent_skip _ "per_page" _ _ (by decide),
      lookup_sent_skip _ "page" _ _ (by decide),
      lookup_sent_found_str _ _ _, pyLower_bool]

/-- C3 counterexample: the non-empty list [""] has comma-join "", yet get sends
no fields parameter at all (the normalization maps it to None), so the claim as
universally stated over non-empty lists fails: the outgoing fields parameter is
not the comma-joined string "". -/
theorem C3_counterexample :
    ([""] : List String) ≠ [] ∧
    String.intercalate "," [""] = "" ∧
    List.lookup "fields"
        (((Users.init "example.com" "token" true).get "u1" (Option.some [""]) true).2.params)
      = Option.none := by
  refine ⟨by decide, by decide, by decide⟩

/-- C3 (amended): for every non-empty fields list whose comma-join is non-empty,
list and get send the fields parameter as the single comma-joined string of its
elements; for an empty list or an absent fields argument no fields key is sent,
and in particular never an empty string. -/
theorem C3_fields_join (u : Users) (fs : List String) (id : String)
    (page per_page : Int) (sort connection q : Option String) (se : String)
    (bt bf bg : Bool)
    (h1 : fs ≠ []) (h2 : String.intercalate "," fs ≠ "") :
    List.lookup "fields" ((u.get id (Option.some fs) bg).2.params)
      = Option.some (PyParam.str (String.intercalate "," fs)) ∧
    List.lookup "fields"
        ((u.list page per_page sort connection q se bt (Option.some fs) bf).2.params)
      = Option.some (PyParam.str (String.intercalate "," fs)) ∧
    List.lookup "fields" ((u.get id Option.none bg).2.params) = Option.none ∧
    List.lookup "fields" ((u.get id (Option.some []) bg).2.params) = Option.none ∧
    List.lookup "fields"
        ((u.list page per_page sort connection q se bt Option.none bf).2.params)
      = Option.none ∧
    List.lookup "fields"
        ((u.list page per_page sort connection q se bt (Option.some []) bf).2.params)
      = Option.none := by
  have hne : fs.isEmpty = false := by
    cases fs with
    | nil => exact absurd rfl h1
    | cons a l => rfl
  have hf : fieldsParam (Option.some fs) = Option.some (String.intercalate "," fs) := by
    simp [fieldsParam, hne, h2]
  refine ⟨?_, ?_, ?_, ?_, ?_, ?_⟩
  · simp only [Users.get, RestClient.get, hf, pyOpt]
    rw [lookup_sent_found_str]
  · simp only [Users.list, RestClient.get, hf, pyOpt]
    rw [lookup_sent_skip _ "per_page" _ _ (by decide),
      lookup_sent_skip _ "page" _ _ (by decide),
      lookup_sent_skip _ "include_totals" _ _ (by decide),
      lookup_sent_skip _ "sort" _ _ (by decide),
      lookup_sent_skip _ "connection" _ _ (by decide),
      lookup_sent_found_str]
  · simp only [Users.get, RestClient.get, fieldsParam, pyOpt]
    rw [lookup_sent_none, lookup_sent_skip _ "include_fields" _ _ (by decide)]
    rfl
  · simp only [Users.get, RestClient.get, fieldsParam, List.isEmpty_nil, if_true, pyOpt]
    rw [lookup_sent_none, lookup_sent_skip _ "include_fields" _ _ (by decide)]
    rfl
  · simp only [Users.list, RestClient.get, fieldsParam, pyOpt]
    rw [lookup_sent_skip _ "per_page" _ _ (by decide),
      lookup_sent_skip _ "page" _ _ (by decide),
      lookup_sent_skip _ "include_totals" _ _ (by decide),
      lookup_sent_skip _ "sort" _ _ (by decide),
      lookup_sent_skip _ "connection" _ _ (by decide),
      lookup_sent_none,
      lookup_sent_skip _ "include_fields" _ _ (by decide),
      lookup_sent_skip _ "q" _ _ (by decide),
      lookup_sent_skip _ "search_engine" _ _ (by decide)]
    rfl
  · simp only [Users.list, RestClient.get, fieldsParam, List.isEmpty_nil, if_true, pyOpt]
    rw [lookup_sent_skip _ "per_page" _ _ (by decide),
      lookup_sent_skip _ "page" _ _ (by decide),
      lookup_sent_skip _ "include_totals" _ _ (by decide),
      lookup_sent_skip _ "sort" _ _ (by decide),
      lookup_sent_skip _ "connection" _ _ (by decide),
      lookup_sent_none,
      lookup_sent_skip _ "include_fields" _ _ (by decide),
      lookup_sent_skip _ "q" _ _ (by decide),
      lookup_sent_skip _ "search_engine" _ _ (by decide)]
    rfl

/-- C3 witness: the amended fields-join property instantiated at the list
["a", "b"], whose join "a,b" is non-empty. -/
theorem C3_fields_join_witness :
    (["a", "b"] : List String) ≠ [] ∧
    String.intercalate "," ["a", "b"] ≠ "" ∧
    (List.lookup "fields"
        (((Users.init "example.com" "token" true).get "u1" (Option.some ["a", "b"]) true).2.params)
      = Option.some (PyParam.str (String.intercalate "," ["a", "b"])) ∧
    List.lookup "fields"
        (((Users.init "example.com" "token" true).list 0 25 Option.none Option.none
            Option.none "v1" true (Option.some ["a", "b"]) true).2.params)
      = Option.some (PyParam.str (String.intercalate "," ["a", "b"])) ∧
    List.lookup "fields"
        (((Users.init "example.com" "token" true).get "u1" Option.none true).2.params)
      = Option.none ∧
    List.lookup "fields"
        (((Users.init "example.com" "token" true).get "u1" (Option.some []) true).2.params)
      = Option.none ∧
    List.lookup "fields"
        (((Users.init "example.com" "token" true).list 0 25 Option.none Option.none
            Option.none "v1" true Option.none true).2.params)
      = Option.none ∧
    List.lookup "fields"
        (((Users.init "example.com" "token" true).list 0 25 Option.none Option.none
            Option.none "v1" true (Option.some []) true).2.params)
      = Option.none) :=
  ⟨by decide, by decide,
    C3_fields_join (Users.init "example.com" "token" true) ["a", "b"] "u1"
      0 25 Option.none Option.none Option.none "v1" true true true
      (by decide) (by decide)⟩

/-- C4: list() at the source defaults (page=0, per_page=25, sort=None,
connection=None, q=None, search_engine="v1", include_totals=True, fields=None,
include_fields=True) issues a GET to the base users URL whose sent parameter
set is exactly per_page=25, page=0, include_totals="true",
include_fields="true", search_engine="v1"; the None-valued sort, connection,
q, and fields entries are omitted entirely, not sent as empty. -/
theorem C4_list_defaults (u : Users) :
    (u.list 0 25 Option.none Option.none Option.none "v1" true Option.none true).2 =
      { method := Method.get,
        url := "https://" ++ u.domain ++ "/api/v2/users",
        params := [("per_page", PyParam.int 25), ("page", PyParam.int 0),
          ("include_totals", PyParam.str "true"),
          ("include_fields", PyParam.str "true"),
          ("search_engine", PyParam.str "v1")],
        data := Option.none } ∧
    List.lookup "sort"
        ((u.list 0 25 Option.none Option.none Option.none "v1" true Option.none true).2.params)
      = Option.none ∧
    List.lookup "connection"
        ((u.list 0 25 Option.none Option.none Option.none "v1" true Option.none true).2.params)
      = Option.none ∧
    List.lookup "q"
        ((u.list 0 25 Option.none Option.none Option.none "v1" true Option.none true).2.params)
      = Option.none ∧
    List.lookup "fields"
        ((u.list 0 25 Option.none Option.none Option.none "v1" true Option.none true).2.params)
      = Option.none := by
  have hp : (u.list 0 25 Option.none Option.none Option.none "v1" true Option.none true).2.params
      = [("per_page", PyParam.int 25), ("page", PyParam.int 0),
        ("include_totals", PyParam.str "true"),
        ("include_fields", PyParam.str "true"),
        ("search_engine", PyParam.str "v1")] := rfl
  refine ⟨rfl, ?_, ?_, ?_, ?_⟩ <;> rw [hp] <;> decide

/-- C5: get("abc123", fields=["email"], include_fields=False) issues a GET to
https://{domain}/api/v2/users/abc123 whose sent parameters map fields to
"email" and include_fields to "false". -/
theorem C5_get_example (u : Users) :
    (u.get "abc123" (Option.some ["email"]) false).2.method = Method.get ∧
    (u.get "abc123" (Option.some ["email"]) false).2.url
      = "https://" ++ u.domain ++ "/api/v2/users/abc123" ∧
    (u.get "abc123" (Option.some ["email"]) false).2.params
      = [("fields", PyParam.str "email"), ("include_fields", PyParam.str "false")] ∧
    (u.get "abc123" (Option.some ["email"]) false).2.data = Option.none := by
  refine ⟨rfl, ?_, rfl, rfl⟩
  show u._url (Option.some "abc123") = _
  rw [url_some_eq, str_append_assoc ("https://" ++ u.domain) "/api/v2/users/" "abc123"]
  rfl

/-- C6: delete_multifactor(id, provider) issues a DELETE to
https://{domain}/api/v2/users/{id}/multifactor/{provider} with no parameters
and no body; in particular delete_multifactor("u1", "duo") targets
.../users/u1/multifactor/duo. -/
theorem C6_delete_multifactor (u : Users) (id provider : String) :
    (u.delete_multifactor id provider).2.method = Method.delete ∧
    (u.delete_multifactor id provider).2.url
      = "https://" ++ u.domain ++ "/api/v2/users/" ++ id ++ "/multifactor/" ++ provider ∧
    (u.delete_multifactor id provider).2.params = [] ∧
    (u.delete_multifactor id provider).2.data = Option.none ∧
    (u.delete_multifactor "u1" "duo").2.url
      = "https://" ++ u.domain ++ "/api/v2/users/u1/multifactor/duo" := by
  refine ⟨rfl, ?_, rfl, rfl, ?_⟩
  · show u._url (Option.some (id ++ "/multifactor/" ++ provider)) = _
    rw [url_some_eq]
    simp [str_append_assoc]
  · show u._url (Option.some ("u1" ++ "/multifactor/" ++ "duo")) = _
    rw [url_some_eq,
      str_append_assoc ("https://" ++ u.domain) "/api/v2/users/" ("u1" ++ "/multifactor/" ++ "duo")]
    rfl

/-- C7: link_user_account(user_id, body) issues a POST to
https://{domain}/api/v2/users/{user_id}/identities whose request body is the
given mapping passed through unmodified, with no query parameters. -/
theorem C7_link_user_account (u : Users) (user_id : String) (body : Body) :
    (u.link_user_account user_id body).2.method = Method.post ∧
    (u.link_user_account user_id body).2.url
      = "https://" ++ u.domain ++ "/api/v2/users/" ++ user_id ++ "/identities" ∧
    (u.link_user_account user_id body).2.data = Option.some body ∧
    (u.link_user_account user_id body).2.params = [] := by
  refine ⟨rfl, ?_, rfl, rfl⟩
  show u._url (Option.some (user_id ++ "/identities")) = _
  rw [url_some_eq]
  simp [str_append_assoc]

/-- C8: every operation returns the instance state it started with: the
domain and REST-client handle after any call are exactly those fixed at
construction, and the state is nothing but that configuration (structure
eta: any state equals the construction from its stored fields). -/
theorem C8_stateless (u : Users) (page per_page : Int)
    (sort connection q : Option String) (se : String) (bt bf : Bool)
    (fields : Option (List String)) (id provider user_id : String) (body : Body) :
    (u.list page per_page sort connection q se bt fields bf).1 = u ∧
    (u.create body).1 = u ∧
    u.delete_all_users.1 = u ∧
    (u.get id fields bf).1 = u ∧
    (u.delete id).1 = u ∧
    (u.update id body).1 = u ∧
    (u.delete_multifactor id provider).1 = u ∧
    (u.unlink_user_account id provider user_id).1 = u ∧
    (u.link_user_account user_id body).1 = u ∧
    (u.regenerate_recovery_code user_id).1 = u ∧
    (u.get_guardian_enrollments user_id).1 = u ∧
    (u.get_log_events user_id page per_page sort bt).1 = u ∧
    u = Users.init u.domain u.client.jwt u.client.telemetry :=
  ⟨rfl, rfl, rfl, rfl, rfl, rfl, rfl, rfl, rfl, rfl, rfl, rfl, rfl⟩

/-- C9: get_log_events(user_id) at the source defaults (page=0, per_page=50,
sort=None, include_totals=False) issues a GET to
https://{domain}/api/v2/users/{user_id}/logs with sent parameters exactly
per_page=50, page=0, include_totals="false"; per_page is passed through with
no local enforcement of the documented maximum of 100. -/
theorem C9_get_log_events (u : Users) (user_id : String) (pp : Int) :
    (u.get_log_events user_id 0 50 Option.none false).2.method = Method.get ∧
    (u.get_log_events user_id 0 50 Option.none false).2.url
      = "https://" ++ u.domain ++ "/api/v2/users/" ++ user_id ++ "/logs" ∧
    (u.get_log_events user_id 0 50 Option.none false).2.params
      = [("per_page", PyParam.int 50), ("page", PyParam.int 0),
        ("include_totals", PyParam.str "false")] ∧
    (u.get_log_events user_id 0 50 Option.none false).2.data = Option.none ∧
    List.lookup "per_page" ((u.get_log_events user_id 0 pp Option.none false).2.params)
      = Option.some (PyParam.int pp) := by
  refine ⟨rfl, ?_, rfl, rfl, ?_⟩
  · show u._url (Option.some (user_id ++ "/logs")) = _
    rw [url_some_eq]
    simp [str_append_assoc]
  · simp only [Users.get_log_events, RestClient.get]
    exact lookup_sent_found _ _ _ rfl

/-- C10: in list and get, a non-empty fields list whose comma-join is the empty
string (for example [""]) is treated as if absent: the normalized value is None
and no fields key goes out, because the normalization uses the truthiness of
the joined string. -/
theorem C10_empty_join (u : Users) (fs : List String) (id : String)
    (page per_page : Int) (sort connection q : Option String) (se : String)
    (bt bf bg : Bool) (h1 : fs ≠ []) (h2 : String.intercalate "," fs = "") :
    fieldsParam (Option.some fs) = Option.none ∧
    List.lookup "fields" ((u.get id (Option.some fs) bg).2.params) = Option.none ∧
    List.lookup "fields"
        ((u.list page per_page sort connection q se bt (Option.some fs) bf).2.params)
      = Option.none := by
  have hne : fs.isEmpty = false := by
    cases fs with
    | nil => exact absurd rfl h1
    | cons a l => rfl
  have hf : fieldsParam (Option.some fs) = Option.none := by
    simp [fieldsParam, hne, h2]
  refine ⟨hf, ?_, ?_⟩
  · simp only [Users.get, RestClient.get, hf, pyOpt]
    rw [lookup_sent_none, lookup_sent_skip _ "include_fields" _ _ (by decide)]
    rfl
  · simp only [Users.list, RestClient.get, hf, pyOpt]
    rw [lookup_sent_skip _ "per_page" _ _ (by decide),
      lookup_sent_skip _ "page" _ _ (by decide),
      lookup_sent_skip _ "include_totals" _ _ (by decide),
      lookup_sent_skip _ "sort" _ _ (by decide),
      lookup_sent_skip _ "connection" _ _ (by decide),
      lookup_sent_none,
      lookup_sent_skip _ "include_fields" _ _ (by decide),
      lookup_sent_skip _ "q" _ _ (by decide),
      lookup_sent_skip _ "search_engine" _ _ (by decide)]
    rfl

/-- C10 witness: the empty-join behavior instantiated at the list [""], which
is non-empty and joins to the empty string. -/
theorem C10_empty_join_witness :
    ([""] : List String) ≠ [] ∧
    String.intercalate "," [""] = "" ∧
    (fieldsParam (Option.some [""]) = Option.none ∧
    List.lookup "fields"
        (((Users.init "example.com" "token" true).get "u1" (Option.some [""]) true).2.params)
      = Option.none ∧
    List.lookup "fields"
        (((Users.init "example.com" "token" true).list 0 25 Option.none Option.none
            Option.none "v1" true (Option.some [""]) true).2.params)
      = Option.none) :=
  ⟨by decide, by decide,
    C10_empty_join (Users.init "example.com" "token" true) [""] "u1"
      0 25 Option.none Option.none Option.none "v1" true true true
      (by decide) (by decide)⟩

end Auth0
